import Mathlib

namespace Spack

/-!
Shallow embedding of `lib/spack/spack/build_systems/cmake.py` and of the
octave recipe `var/spack/repos/builtin/packages/octave/package.py`, together
with spec-modelled fragments (dependency solver, `filter_system_paths`,
`working_dir`, orchestrator sequencing) for the parts of the repository the
excerpt calls into.
-/

/-- Decidable equality for `Except`, used to evaluate the embedded fallible
functions on concrete inputs. -/
instance {ε α : Type} [DecidableEq ε] [DecidableEq α] : DecidableEq (Except ε α) := by
  intro a b
  cases a <;> cases b
  case error.error x y =>
    exact if h : x = y then isTrue (by rw [h]) else isFalse (by intro he; cases he; exact h rfl)
  case error.ok x y => exact isFalse (by intro he; cases he)
  case ok.error x y => exact isFalse (by intro he; cases he)
  case ok.ok x y =>
    exact if h : x = y then isTrue (by rw [h]) else isFalse (by intro he; cases he; exact h rfl)

/-- Characters of the first line of a string: Python's regex `.` does not
match a newline, so a match of the pattern `(?:.* - )?(.*)` is confined to
the prefix of the subject before the first newline character. -/
def firstLineChars (l : List Char) : List Char := l.takeWhile (fun c => !(c == '\n'))

/-- Does the character list start with the literal separator " - "? -/
def sepStart : List Char → Bool
  | ' ' :: '-' :: ' ' :: _ => true
  | _ => false

/-- Suffix after the rightmost occurrence of " - " in the list (greedy
backtracking of `.*` in the regex selects the last position at which the
separator can end), or `none` when no occurrence exists. -/
def lastSepSuffix : List Char → Option (List Char)
  | [] => none
  | c :: cs =>
    match lastSepSuffix cs with
    | some r => some r
    | none => if sepStart (c :: cs) then some ((c :: cs).drop 3) else none

/-- Embedding of `_extract_primary_generator`: group 1 of
`re.match(r'(?:.* - )?(.*)', generator)` — the part of the first line of the
generator string after the rightmost " - " separator occurring on that line,
or the whole first line when that line has no separator. -/
def _extract_primary_generator (g : String) : String :=
  let l := firstLineChars g.data
  match lastSepSuffix l with
  | some r => String.mk r
  | none => String.mk l

/-- The claim's reading of the primary component, stated from the spec's
words for comparison with the source function: the entire string when it
contains no " - " separator, the text following the final " - " otherwise. -/
def primary_component_spec (g : String) : String :=
  match lastSepSuffix g.data with
  | some r => String.mk r
  | none => g

/-- Concretized-spec data consumed by `_std_args`: the variant assignment
(`spec.variants`, value strings) and the install prefixes of the build/link
dependencies in dependency order
(`[d.prefix for d in pkg.spec.dependencies(deptype=('build', 'link'))]`). -/
structure SpecData where
  variants : List (String × String)
  dep_prefixes : List String
  deriving DecidableEq

/-- The package-object fields read by the embedded code. `generator = none`
models an object without the attribute (the `AttributeError` branch of
`_std_args`); `rpaths` models the result of
`spack.build_environment.get_rpaths(pkg)`, an input fact of the builder;
`make_targets_present`/`ninja_targets_present` model which targets the
generated build file declares (consulted by the check helpers). -/
structure Pkg where
  generator : Option String
  spec : SpecData
  prefix_path : String
  rpaths : List String
  stage_path : String
  source_path : String
  cmake_args_list : List String := []
  build_targets : List String := []
  install_targets : List String := ["install"]
  make_targets_present : List String := []
  ninja_targets_present : List String := []
  deriving DecidableEq

/-- Host facts consumed by the argument builder: truthiness of
`platform.mac_ver()[0]` and the system default search path consulted by
`filter_system_paths`. -/
structure PlatformFacts where
  isMac : Bool
  system_paths : List String
  deriving DecidableEq

/-- Keep-first deduplication: an element equal to one already kept is
dropped, first occurrences survive in order. -/
def dedupKeepFirst (seen : List String) : List String → List String
  | [] => []
  | x :: xs =>
    if x ∈ seen then dedupKeepFirst seen xs
    else x :: dedupKeepFirst (x :: seen) xs

/-- Modelled from the spec: `spack.util.environment.filter_system_paths`
(code of the repository not under src/) — the dependency install locations
"deduplicated and filtered to exclude paths already implied by the system
default search path", order preserved. -/
def filter_system_paths (system : List String) (paths : List String) : List String :=
  dedupKeepFirst [] (paths.filter (fun p => !(system.contains p)))

/-- The declared-legal primary generators of `_std_args`. -/
def valid_primary_generators : List String := ["Unix Makefiles", "Ninja"]

/-- Effective generator of a package: the attribute when present,
"Unix Makefiles" on `AttributeError`. The class itself declares
`generator = 'Unix Makefiles'` as the default. -/
def generator_of (pkg : Pkg) : String := pkg.generator.getD "Unix Makefiles"

/-- The `InstallError` message raised for an unsupported generator. -/
def invalid_generator_msg (g : String) : String :=
  "Invalid CMake generator: '" ++ g ++ "'\n" ++
  "CMakePackage currently supports the following " ++
  "primary generators: '" ++ String.intercalate "', '" valid_primary_generators ++ "'"

/-- Declared legal values of the `build_type` variant (cmake.py lines 93-95). -/
def cmake_build_type_values : List String :=
  ["Debug", "Release", "RelWithDebInfo", "MinSizeRel"]

/-- Declared default of the `build_type` variant. -/
def cmake_build_type_default : String := "RelWithDebInfo"

/-- The build type used by `_std_args`: the spec's `build_type` variant
value, or "RelWithDebInfo" on `KeyError`. -/
def build_type_of (s : SpecData) : String :=
  (List.lookup "build_type" s.variants).getD "RelWithDebInfo"

/-- Embedding of `CMakePackage._std_args`: validate the primary generator,
then build the ordered argument list (generator selection, install prefix,
build type, verbose-makefile switch for Unix Makefiles, the macOS find/rpath
switches, the rpath assignments and the dependency prefix path). -/
def std_args (pkg : Pkg) (pf : PlatformFacts) : Except String (List String) :=
  let generator := generator_of pkg
  let primary := _extract_primary_generator generator
  if primary ∉ valid_primary_generators then
    Except.error (invalid_generator_msg generator)
  else
    let bt := build_type_of pkg.spec
    let rpathsJ :=
      let r := String.intercalate ";" pkg.rpaths
      if pf.isMac then String.intercalate ";" [r, "@rpath"] else r
    let deps := filter_system_paths pf.system_paths pkg.spec.dep_prefixes
    Except.ok
      ((["-G", generator,
         "-DCMAKE_INSTALL_PREFIX:PATH=" ++ pkg.prefix_path,
         "-DCMAKE_BUILD_TYPE:STRING=" ++ bt]
        ++ (if primary = "Unix Makefiles" then ["-DCMAKE_VERBOSE_MAKEFILE:BOOL=ON"] else [])
        ++ (if pf.isMac then
              ["-DCMAKE_FIND_FRAMEWORK:STRING=LAST",
               "-DCMAKE_FIND_APPBUNDLE:STRING=LAST",
               "-DCMAKE_MACOSX_RPATH:BOOL=ON"] else [])
        ++ ["-DCMAKE_INSTALL_RPATH_USE_LINK_PATH:BOOL=FALSE",
            "-DCMAKE_INSTALL_RPATH:STRING=" ++ rpathsJ])
        ++ ["-DCMAKE_PREFIX_PATH:STRING=" ++ String.intercalate ";" deps])

/-- The dynamically-set attribute `cmake_flag_args` of the package object
(its only mutable state touched by the embedded code); `none` models the
attribute being absent, as read by `getattr(self, 'cmake_flag_args', [])`. -/
structure MutState where
  cmake_flag_args : Option (List String)
  deriving DecidableEq

/-- `_std_args` in object-state-passing style: the source performs no
`setattr` and reads no mutable attribute, so the state is returned
unchanged and the result is computed from the immutable inputs alone. -/
def std_args_st (pkg : Pkg) (pf : PlatformFacts) (st : MutState) :
    Except String (List String) × MutState :=
  (std_args pkg pf, st)

/-- The compiler-flag groups handed to `flags_to_build_system_args`. A key
missing from the Python dict behaves as the empty list (the language groups
are read with `flags.get(flag, [])`, and the callers always populate the
`ldflags`/`ldlibs` keys). -/
structure Flags where
  cflags : List String := []
  cxxflags : List String := []
  fflags : List String := []
  cppflags : List String := []
  ldflags : List String := []
  ldlibs : List String := []
  deriving DecidableEq

/-- `' '.join(...)`. -/
def joinSpace (l : List String) : String := String.intercalate " " l

/-- The `langs = {'C': 'c', 'CXX': 'cxx', 'Fortran': 'f'}` table, paired
with the corresponding per-language flag lists of `fl`. -/
def lang_flag_lists (fl : Flags) : List (String × List String) :=
  [("C", fl.cflags), ("CXX", fl.cxxflags), ("Fortran", fl.fflags)]

/-- The value `flags_to_build_system_args` leaves in `cmake_flag_args`: the
per-language `-DCMAKE_<LANG>_FLAGS` assignments (cppflags appended to each
language group, emitted exactly when the joined string is non-empty), then
the four per-kind linker-flag assignments when `ldflags` is a non-empty
list, then the per-language standard-libraries assignments when `ldlibs`
is a non-empty list. -/
def cmake_flag_args_of (fl : Flags) : List String :=
  ((lang_flag_lists fl).filterMap (fun p =>
      let lf := joinSpace (p.snd ++ fl.cppflags)
      if lf = "" then none else some ("-DCMAKE_" ++ p.fst ++ "_FLAGS=" ++ lf)))
  ++ (if fl.ldflags = [] then [] else
        ["EXE", "MODULE", "SHARED", "STATIC"].map
          (fun t => "-DCMAKE_" ++ t ++ "_LINKER_FLAGS=" ++ joinSpace fl.ldflags))
  ++ (if fl.ldlibs = [] then [] else
        ["C", "CXX", "Fortran"].map
          (fun l => "-DCMAKE_" ++ l ++ "_STANDARD_LIBRARIES=" ++ joinSpace fl.ldlibs))

/-- Embedding of `flags_to_build_system_args`: it unconditionally re-creates
the attribute (`setattr(self, 'cmake_flag_args', [])`) and then appends the
translated groups, so the final attribute value is `cmake_flag_args_of`
regardless of the previous object state. -/
def flags_to_build_system_args (fl : Flags) (st : MutState) : MutState :=
  { st with cmake_flag_args := some (cmake_flag_args_of fl) }

/-- Embedding of the `std_cmake_args` property: `_std_args` plus
`getattr(self, 'cmake_flag_args', [])`. -/
def std_cmake_args (pkg : Pkg) (pf : PlatformFacts) (st : MutState) :
    Except String (List String) :=
  (std_args pkg pf).map (fun a => a ++ st.cmake_flag_args.getD [])

/-- One recorded external-tool invocation: the working directory it ran in,
the tool name and its ordered argument list. -/
structure Invocation where
  cwd : String
  tool : String
  args : List String
  deriving DecidableEq

/-- Execution-relevant state of a node's build: the current working
directory and the trace of external-tool invocations performed so far. -/
structure ExecState where
  cwd : String
  trace : List Invocation
  deriving DecidableEq

/-- A phase (or phase body): transforms the execution state and either
succeeds or raises. -/
def EAction : Type := ExecState → Except String Unit × ExecState

/-- The execution collaborator's verdict on an invocation (success, or the
exception the external tool raises) — an input of the model. -/
def ExecOracle : Type := Invocation → Except String Unit

/-- Record an invocation of a tool at the current working directory; the
collaborator decides success or failure. -/
def run_tool (exec : ExecOracle) (tool : String) (args : List String) : EAction :=
  fun st =>
    let inv : Invocation := ⟨st.cwd, tool, args⟩
    (exec inv, { st with trace := st.trace ++ [inv] })

/-- Sequencing of two actions: the second runs only when the first
succeeded; an exception propagates. -/
def seqE (a b : EAction) : EAction := fun st =>
  match a st with
  | (Except.ok _, st') => b st'
  | (Except.error e, st') => (Except.error e, st')

/-- The do-nothing action (a conditional branch that does not run). -/
def skipE : EAction := fun st => (Except.ok (), st)

/-- Modelled from the spec: `llnl.util.filesystem.working_dir` (code of the
repository not under src/) — "a scoped working-directory context ...
guaranteeing restoration of the prior working directory on every exit path
including failure". The `create` flag touches only the filesystem, which is
outside the modelled state. -/
def with_working_dir (dir : String) (body : EAction) : EAction := fun st =>
  let r := body { st with cwd := dir }
  (r.fst, { r.snd with cwd := st.cwd })

/-- `a.endswith('/')`, tested on the final character. -/
def ends_with_slash (a : String) : Bool :=
  match a.data.getLast? with
  | some c => c == '/'
  | none => false

/-- `b.startswith('/')`, tested on the first character. -/
def starts_with_slash (b : String) : Bool :=
  match b.data with
  | c :: _ => c == '/'
  | [] => false

/-- `os.path.join` for a non-absolute second component. -/
def os_path_join (a b : String) : String :=
  if a = "" then b else if ends_with_slash a then a ++ b else a ++ "/" ++ b

/-- `os.path.abspath` against the current working directory; collapsing of
dot segments is not modelled (no property below depends on it). -/
def os_abspath (cwd p : String) : String :=
  if starts_with_slash p then p else os_path_join cwd p

/-- Embedding of the `build_directory` property:
`os.path.join(self.stage.path, 'spack-build')`. -/
def build_directory (pkg : Pkg) : String := os_path_join pkg.stage_path "spack-build"

/-- Embedding of the `root_cmakelists_dir` property
(`self.stage.source_path`). -/
def root_cmakelists_dir (pkg : Pkg) : String := pkg.source_path

/-- Embedding of the `cmake` phase: the options (absolute root CMakeLists
directory, `std_cmake_args` — whose generator validation may raise before
any directory change —, `cmake_args()`) are computed outside the
working-directory context; the tool itself runs inside it. -/
def cmakePhase (pkg : Pkg) (pf : PlatformFacts) (mst : MutState) (exec : ExecOracle) : EAction :=
  fun st =>
    match std_cmake_args pkg pf mst with
    | Except.error e => (Except.error e, st)
    | Except.ok opts =>
        with_working_dir (build_directory pkg)
          (run_tool exec "cmake"
            (os_abspath st.cwd (root_cmakelists_dir pkg) :: (opts ++ pkg.cmake_args_list))) st

/-- Embedding of the `build` phase: inside the build directory, run make or
ninja according to the exact generator attribute; any other generator makes
the body fall through both branches. -/
def buildPhase (pkg : Pkg) (exec : ExecOracle) : EAction :=
  with_working_dir (build_directory pkg)
    (if generator_of pkg = "Unix Makefiles" then run_tool exec "make" pkg.build_targets
     else if generator_of pkg = "Ninja" then run_tool exec "ninja" pkg.build_targets
     else skipE)

/-- Embedding of the `install` phase (same dispatch, install targets). -/
def installPhase (pkg : Pkg) (exec : ExecOracle) : EAction :=
  with_working_dir (build_directory pkg)
    (if generator_of pkg = "Unix Makefiles" then run_tool exec "make" pkg.install_targets
     else if generator_of pkg = "Ninja" then run_tool exec "ninja" pkg.install_targets
     else skipE)

/-- Modelled from the spec: `PackageBase._if_make_target_execute` (code of
the repository not under src/) — run the target only when the generated
build file declares it (an input fact of the model). -/
def if_make_target_execute (pkg : Pkg) (exec : ExecOracle) (t : String) : EAction :=
  if t ∈ pkg.make_targets_present then run_tool exec "make" [t] else skipE

/-- Modelled from the spec: `PackageBase._if_ninja_target_execute`. -/
def if_ninja_target_execute (pkg : Pkg) (exec : ExecOracle) (t : String) : EAction :=
  if t ∈ pkg.ninja_targets_present then run_tool exec "ninja" [t] else skipE

/-- Embedding of the `check` phase: inside the build directory, run the
`test` and then the `check` target when present. -/
def checkPhase (pkg : Pkg) (exec : ExecOracle) : EAction :=
  with_working_dir (build_directory pkg)
    (if generator_of pkg = "Unix Makefiles" then
       seqE (if_make_target_execute pkg exec "test") (if_make_target_execute pkg exec "check")
     else if generator_of pkg = "Ninja" then
       seqE (if_ninja_target_execute pkg exec "test") (if_ninja_target_execute pkg exec "check")
     else skipE)

/-- Modelled from the spec: the orchestrator executes the declared phase
sequence cmake, build, install in order for a node, each subsequent phase
only if the prior one succeeded; a raised error aborts the node. -/
def run_phases (pkg : Pkg) (pf : PlatformFacts) (mst : MutState) (exec : ExecOracle) : EAction :=
  seqE (cmakePhase pkg pf mst exec) (seqE (buildPhase pkg exec) (installPhase pkg exec))

/-- One `depends_on` declaration of a registry entry: the target spec string
and an optional boolean-variant guard (`when='+name'`). -/
structure DepDecl where
  target : String
  guard : Option String
  deriving DecidableEq

/-- Modelled from the spec: the solver includes a declared dependency in the
output graph exactly when its guard (if any) evaluates true against the
depender's final variant assignment. -/
def solve_deps (vars : String → Bool) (decls : List DepDecl) : List String :=
  decls.filterMap (fun d =>
    match d.guard with
    | none => some d.target
    | some v => if vars v then some d.target else none)

/-- The octave recipe's dependency declarations (package.py lines 57-88) in
declaration order; the build-only `sed` dependency is declared only when
the host platform is darwin. -/
def octave_dep_decls (isDarwin : Bool) : List DepDecl :=
  [⟨"blas", none⟩, ⟨"lapack", none⟩]
  ++ (if isDarwin then [⟨"sed", none⟩] else [])
  ++ [⟨"pcre", none⟩, ⟨"pkgconfig", none⟩,
      ⟨"readline", some "readline"⟩,
      ⟨"arpack-ng", some "arpack"⟩,
      ⟨"curl", some "curl"⟩,
      ⟨"fftw", some "fftw"⟩,
      ⟨"fltk", some "fltk"⟩,
      ⟨"fontconfig", some "fontconfig"⟩,
      ⟨"freetype", some "freetype"⟩,
      ⟨"glpk", some "glpk"⟩,
      ⟨"gl2ps", some "gl2ps"⟩,
      ⟨"gnuplot", some "gnuplot"⟩,
      ⟨"image-magick", some "magick"⟩,
      ⟨"hdf5", some "hdf5"⟩,
      ⟨"java", some "jdk"⟩,
      ⟨"llvm", some "llvm"⟩,
      ⟨"qhull", some "qhull"⟩,
      ⟨"qrupdate", some "qrupdate"⟩,
      ⟨"qt+opengl", some "qt"⟩,
      ⟨"suite-sparse", some "suitesparse"⟩,
      ⟨"zlib", some "zlib"⟩]

/-- The octave concretized spec as read by `configure_args`: the boolean
variants it tests and the attributes of the dependency nodes it references
(the `ld_flags` of the blas/lapack libs, install prefixes, the java home
and java library directory). -/
structure OctaveSpec where
  readline : Bool
  arpack : Bool
  curl : Bool
  fftw : Bool
  fltk : Bool
  glpk : Bool
  magick : Bool
  hdf5 : Bool
  jdk : Bool
  opengl : Bool
  qhull : Bool
  qrupdate : Bool
  zlib : Bool
  blas_ld : String
  lapack_ld : String
  arpack_pr : String
  curl_pr : String
  fftw_pr : String
  fltk_pr : String
  glpk_pr : String
  magick_pr : String
  hdf5_pr : String
  java_home : String
  java_libdir : String
  qhull_pr : String
  qrupdate_pr : String
  zlib_pr : String
  deriving DecidableEq

/-- `Prefix.include` of a spack install prefix. -/
def pr_include (p : String) : String := os_path_join p "include"

/-- `Prefix.lib` of a spack install prefix. -/
def pr_lib (p : String) : String := os_path_join p "lib"

/-- The always-emitted blas/lapack arguments (package.py lines 99-102). -/
def octave_blas_args (s : OctaveSpec) : List String :=
  ["--with-blas=" ++ s.blas_ld, "--with-lapack=" ++ s.lapack_ld]

/-- The readline block (lines 105-108). -/
def octave_readline_args (s : OctaveSpec) : List String :=
  if s.readline then ["--enable-readline"] else ["--disable-readline"]

/-- The arpack block (lines 111-118). -/
def octave_arpack_args (s : OctaveSpec) : List String :=
  if s.arpack then
    ["--with-arpack-includedir=" ++ pr_include s.arpack_pr,
     "--with-arpack-libdir=" ++ pr_lib s.arpack_pr]
  else ["--without-arpack"]

/-- The curl block (lines 120-126). -/
def octave_curl_args (s : OctaveSpec) : List String :=
  if s.curl then
    ["--with-curl-includedir=" ++ pr_include s.curl_pr,
     "--with-curl-libdir=" ++ pr_lib s.curl_pr]
  else ["--without-curl"]

/-- The fftw block (lines 128-139). -/
def octave_fftw_args (s : OctaveSpec) : List String :=
  if s.fftw then
    ["--with-fftw3-includedir=" ++ pr_include s.fftw_pr,
     "--with-fftw3-libdir=" ++ pr_lib s.fftw_pr,
     "--with-fftw3f-includedir=" ++ pr_include s.fftw_pr,
     "--with-fftw3f-libdir=" ++ pr_lib s.fftw_pr]
  else ["--without-fftw3", "--without-fftw3f"]

/-- The fltk block (lines 141-147). -/
def octave_fltk_args (s : OctaveSpec) : List String :=
  if s.fltk then
    ["--with-fltk-prefix=" ++ s.fltk_pr,
     "--with-fltk-exec-prefix=" ++ s.fltk_pr]
  else ["--without-fltk"]

/-- The glpk block (lines 149-155). -/
def octave_glpk_args (s : OctaveSpec) : List String :=
  if s.glpk then
    ["--with-glpk-includedir=" ++ pr_include s.glpk_pr,
     "--with-glpk-libdir=" ++ pr_lib s.glpk_pr]
  else ["--without-glpk"]

/-- The magick block (lines 157-161). -/
def octave_magick_args (s : OctaveSpec) : List String :=
  if s.magick then ["--with-magick=" ++ pr_lib s.magick_pr]
  else ["--without-magick"]

/-- The hdf5 block (lines 163-169). -/
def octave_hdf5_args (s : OctaveSpec) : List String :=
  if s.hdf5 then
    ["--with-hdf5-includedir=" ++ pr_include s.hdf5_pr,
     "--with-hdf5-libdir=" ++ pr_lib s.hdf5_pr]
  else ["--without-hdf5"]

/-- The jdk block (lines 171-178). -/
def octave_jdk_args (s : OctaveSpec) : List String :=
  if s.jdk then
    ["--with-java-homedir=" ++ s.java_home,
     "--with-java-includedir=" ++ pr_include s.java_home,
     "--with-java-libdir=" ++ s.java_libdir]
  else ["--disable-java"]

/-- The opengl block (lines 180-185): only the disabled case emits
arguments. -/
def octave_opengl_args (s : OctaveSpec) : List String :=
  if s.opengl then [] else ["--without-opengl", "--without-framework-opengl"]

/-- The qhull block (lines 187-193). -/
def octave_qhull_args (s : OctaveSpec) : List String :=
  if s.qhull then
    ["--with-qhull-includedir=" ++ pr_include s.qhull_pr,
     "--with-qhull-libdir=" ++ pr_lib s.qhull_pr]
  else ["--without-qhull"]

/-- The qrupdate block (lines 195-202). -/
def octave_qrupdate_args (s : OctaveSpec) : List String :=
  if s.qrupdate then
    ["--with-qrupdate-includedir=" ++ pr_include s.qrupdate_pr,
     "--with-qrupdate-libdir=" ++ pr_lib s.qrupdate_pr]
  else ["--without-qrupdate"]

/-- The zlib block (lines 204-210). -/
def octave_zlib_args (s : OctaveSpec) : List String :=
  if s.zlib then
    ["--with-z-includedir=" ++ pr_include s.zlib_pr,
     "--with-z-libdir=" ++ pr_lib s.zlib_pr]
  else ["--without-z"]

/-- Embedding of `Octave.configure_args`: the blocks in source order. -/
def octave_configure_args (s : OctaveSpec) : List String :=
  octave_blas_args s
  ++ octave_readline_args s
  ++ octave_arpack_args s
  ++ octave_curl_args s
  ++ octave_fftw_args s
  ++ octave_fltk_args s
  ++ octave_glpk_args s
  ++ octave_magick_args s
  ++ octave_hdf5_args s
  ++ octave_jdk_args s
  ++ octave_opengl_args s
  ++ octave_qhull_args s
  ++ octave_qrupdate_args s
  ++ octave_zlib_args s

/-- An action that neither moves the working directory nor erases trace
entries: it appends some invocations, all issued at the entry working
directory, and leaves the working directory where it found it. All phase
bodies have this shape. -/
def CwdStable (a : EAction) : Prop :=
  ∀ st, (a st).snd.cwd = st.cwd ∧
    ∃ new, (a st).snd.trace = st.trace ++ new ∧ ∀ inv ∈ new, inv.cwd = st.cwd

/-- A configure argument that is not one of the arpack arguments: its
character at index 6/7 rules out the "--with-arpack-" shape, and its
character at index 9/10 rules out the "--without-arpack" literal. Every
argument emitted by a non-arpack block of `configure_args` satisfies this. -/
def NotArpackish (e : String) : Prop :=
  (e.data[6]? ≠ some '-' ∨ e.data[7]? ≠ some 'a') ∧
  (e.data[9]? ≠ some '-' ∨ e.data[10]? ≠ some 'a')

instance (e : String) : Decidable (NotArpackish e) := by
  unfold NotArpackish
  infer_instance

/-- Extract the payload of a successful result. -/
def okOr (e : Except String (List String)) (d : List String) : List String :=
  match e with
  | Except.ok a => a
  | Except.error _ => d

/-- Did the computation succeed? -/
def except_is_ok (e : Except String (List String)) : Bool :=
  match e with
  | Except.ok _ => true
  | Except.error _ => false

/-- A minimal platform-facts fixture (non-mac host, empty system path). -/
def pfSimple : PlatformFacts := ⟨false, []⟩

/-- A minimal well-formed package fixture (class-default generator). -/
def pkgSimple : Pkg :=
  { generator := none, spec := ⟨[], []⟩, prefix_path := "/opt/pkg", rpaths := [],
    stage_path := "/tmp/stage", source_path := "/tmp/stage/src" }

/-- A package fixture whose generator attribute is a generator unknown to
the build/install dispatch (its primary component is also not legal). -/
def pkgXcode : Pkg :=
  { generator := some "Xcode", spec := ⟨[], []⟩, prefix_path := "/opt/pkg", rpaths := [],
    stage_path := "/tmp/stage", source_path := "/tmp/stage/src" }

/-- A package fixture whose generator string passes the primary-generator
validation (primary component "Ninja") while being the exact install-prefix
assignment string of the package. -/
def pkgColl : Pkg :=
  { generator := some "-DCMAKE_INSTALL_PREFIX:PATH=/opt - Ninja",
    spec := ⟨[], []⟩, prefix_path := "/opt - Ninja", rpaths := [],
    stage_path := "/tmp/stage", source_path := "/tmp/stage/src" }

/-- A package fixture with duplicated and system-owned dependency prefixes. -/
def pkgDeps : Pkg :=
  { generator := none, spec := ⟨[], ["/usr", "/opt/a", "/opt/a", "/opt/b"]⟩,
    prefix_path := "/opt/pkg", rpaths := [], stage_path := "/tmp/stage",
    source_path := "/tmp/stage/src" }

/-- Platform facts whose system default search path owns "/usr". -/
def pfUsr : PlatformFacts := ⟨false, ["/usr"]⟩

/-- An execution collaborator for which every tool succeeds. -/
def execOk : ExecOracle := fun _ => Except.ok ()

/-- A starting execution state. -/
def stSimple : ExecState := ⟨"/home/user", []⟩

/-- A flags fixture. -/
def flSimple : Flags :=
  { cflags := ["-O2"], cxxflags := [], fflags := [], cppflags := ["-DNDEBUG"],
    ldflags := ["-L/opt/lib"], ldlibs := ["-lm"] }

/-! Helper lemmas: discriminating argument strings by one character, so that
membership in an argument list can be decided even when parts of the strings
are symbolic. -/

theorem ne_of_charAt {s t : String} (i : Nat) (c d : Char)
    (hs : s.data[i]? = some c) (ht : t.data[i]? = some d) (hcd : c ≠ d) :
    s ≠ t := by
  intro he
  rw [he, ht] at hs
  exact hcd (Option.some.inj hs).symm

theorem charAt_append {p : String} (x : String) {i : Nat} {c : Char}
    (hp : p.data[i]? = some c) : (p ++ x).data[i]? = some c := by
  have hi : i < p.data.length := by
    rcases List.getElem?_eq_some.mp hp with ⟨hh, _⟩
    exact hh
  rw [String.data_append, List.getElem?_append_left hi]
  exact hp

theorem appends_ne (p q x y : String) (i : Nat) (c d : Char)
    (hp : p.data[i]? = some c) (hq : q.data[i]? = some d) (hcd : c ≠ d) :
    p ++ x ≠ q ++ y :=
  ne_of_charAt i c d (charAt_append x hp) (charAt_append y hq) hcd

theorem append_ne_lit (p x q : String) (i : Nat) (c d : Char)
    (hp : p.data[i]? = some c) (hq : q.data[i]? = some d) (hcd : c ≠ d) :
    p ++ x ≠ q :=
  ne_of_charAt i c d (charAt_append x hp) hq hcd

theorem lit_ne_append (p q y : String) (i : Nat) (c d : Char)
    (hp : p.data[i]? = some c) (hq : q.data[i]? = some d) (hcd : c ≠ d) :
    p ≠ q ++ y :=
  ne_of_charAt i c d hp (charAt_append y hq) hcd

/-! Helper lemmas about keep-first deduplication. -/

theorem dedupKeepFirst_sublist (seen : List String) (l : List String) :
    List.Sublist (dedupKeepFirst seen l) l := by
  induction l generalizing seen with
  | nil => simp [dedupKeepFirst]
  | cons x xs ih =>
    unfold dedupKeepFirst
    split
    · exact List.Sublist.cons x (ih seen)
    · exact List.Sublist.cons₂ x (ih (x :: seen))

theorem dedupKeepFirst_not_mem_seen (seen l : List String) :
    ∀ x ∈ dedupKeepFirst seen l, x ∉ seen := by
  induction l generalizing seen with
  | nil => simp [dedupKeepFirst]
  | cons y ys ih =>
    unfold dedupKeepFirst
    split
    · exact ih seen
    · intro x hx
      rcases List.mem_cons.mp hx with rfl | hmem
      · assumption
      · intro hseen
        exact ih (y :: seen) x hmem (List.mem_cons_of_mem _ hseen)

theorem dedupKeepFirst_nodup (seen l : List String) :
    (dedupKeepFirst seen l).Nodup := by
  induction l generalizing seen with
  | nil => simp [dedupKeepFirst]
  | cons y ys ih =>
    unfold dedupKeepFirst
    split
    · exact ih seen
    · refine List.nodup_cons.mpr ⟨?_, ih (y :: seen)⟩
      intro hy
      exact dedupKeepFirst_not_mem_seen (y :: seen) ys y hy (List.mem_cons_self y seen)

theorem dedupKeepFirst_mem_of (seen l : List String) (x : String)
    (hx : x ∈ l) (hnx : x ∉ seen) : x ∈ dedupKeepFirst seen l := by
  induction l generalizing seen with
  | nil => cases hx
  | cons y ys ih =>
    unfold dedupKeepFirst
    rcases List.mem_cons.mp hx with rfl | hmem
    · split
      · exact absurd (by assumption) hnx
      · exact List.mem_cons_self _ _
    · split
      · exact ih seen hmem hnx
      · by_cases hxy : x = y
        · subst hxy
          exact List.mem_cons_self _ _
        · refine List.mem_cons_of_mem _ (ih (y :: seen) hmem ?_)
          intro hx2
          rcases List.mem_cons.mp hx2 with h | h
          · exact hxy h
          · exact hnx h

/-! Helper lemmas about phase bodies and the working-directory context. -/

theorem run_tool_stable (exec : ExecOracle) (t : String) (args : List String) :
    CwdStable (run_tool exec t args) := by
  intro st
  refine ⟨rfl, [⟨st.cwd, t, args⟩], rfl, ?_⟩
  intro inv hinv
  rw [List.mem_singleton.mp hinv]

theorem skipE_stable : CwdStable skipE := by
  intro st
  exact ⟨rfl, [], by simp [skipE], by simp⟩

theorem seqE_stable {a b : EAction} (ha : CwdStable a) (hb : CwdStable b) :
    CwdStable (seqE a b) := by
  intro st
  unfold seqE
  rcases hres : a st with ⟨r, st1⟩
  rcases ha st with ⟨hc, new1, ht, hi⟩
  rw [hres] at hc ht
  cases r with
  | error e => exact ⟨hc, new1, ht, hi⟩
  | ok u =>
    rcases hb st1 with ⟨hc2, new2, ht2, hi2⟩
    refine ⟨hc2.trans hc, new1 ++ new2, ?_, ?_⟩
    · rw [ht2, ht, List.append_assoc]
    · intro inv hinv
      rcases List.mem_append.mp hinv with h | h
      · exact hi inv h
      · exact (hi2 inv h).trans hc

theorem ite_stable {c : Prop} [Decidable c] {a b : EAction}
    (ha : CwdStable a) (hb : CwdStable b) : CwdStable (if c then a else b) := by
  split
  · exact ha
  · exact hb

theorem with_working_dir_parts (dir : String) (body : EAction) (hb : CwdStable body)
    (st : ExecState) :
    (with_working_dir dir body st).snd.cwd = st.cwd ∧
    ∃ new, (with_working_dir dir body st).snd.trace = st.trace ++ new ∧
      ∀ inv ∈ new, inv.cwd = dir := by
  rcases hb { st with cwd := dir } with ⟨_, new, ht, hi⟩
  exact ⟨rfl, new, ht, hi⟩

/-- The body of the build phase is a fixed-directory action. -/
theorem buildPhase_body_stable (pkg : Pkg) (exec : ExecOracle) :
    CwdStable (if generator_of pkg = "Unix Makefiles" then run_tool exec "make" pkg.build_targets
     else if generator_of pkg = "Ninja" then run_tool exec "ninja" pkg.build_targets
     else skipE) :=
  ite_stable (run_tool_stable _ _ _) (ite_stable (run_tool_stable _ _ _) skipE_stable)

theorem installPhase_body_stable (pkg : Pkg) (exec : ExecOracle) :
    CwdStable (if generator_of pkg = "Unix Makefiles" then run_tool exec "make" pkg.install_targets
     else if generator_of pkg = "Ninja" then run_tool exec "ninja" pkg.install_targets
     else skipE) :=
  ite_stable (run_tool_stable _ _ _) (ite_stable (run_tool_stable _ _ _) skipE_stable)

theorem if_make_target_stable (pkg : Pkg) (exec : ExecOracle) (t : String) :
    CwdStable (if_make_target_execute pkg exec t) := by
  unfold if_make_target_execute
  exact ite_stable (run_tool_stable _ _ _) skipE_stable

theorem if_ninja_target_stable (pkg : Pkg) (exec : ExecOracle) (t : String) :
    CwdStable (if_ninja_target_execute pkg exec t) := by
  unfold if_ninja_target_execute
  exact ite_stable (run_tool_stable _ _ _) skipE_stable

theorem checkPhase_body_stable (pkg : Pkg) (exec : ExecOracle) :
    CwdStable (if generator_of pkg = "Unix Makefiles" then
       seqE (if_make_target_execute pkg exec "test") (if_make_target_execute pkg exec "check")
     else if generator_of pkg = "Ninja" then
       seqE (if_ninja_target_execute pkg exec "test") (if_ninja_target_execute pkg exec "check")
     else skipE) :=
  ite_stable (seqE_stable (if_make_target_stable _ _ _) (if_make_target_stable _ _ _))
    (ite_stable (seqE_stable (if_ninja_target_stable _ _ _) (if_ninja_target_stable _ _ _))
      skipE_stable)

/-- A list whose characters avoid the newline is its own first line. -/
theorem firstLineChars_eq_self {l : List Char} (h : ∀ c ∈ l, c ≠ '\n') :
    firstLineChars l = l := by
  apply List.takeWhile_eq_self_iff.mpr
  intro c hc
  simpa using h c hc

/-! The claims. -/

/-- C1: the standard-argument computation is pure and deterministic: in
object-state-passing style its result depends only on the package spec and
the platform facts (not on the mutable attribute state), the mutable state
is returned unchanged, and a second invocation performed after the first
yields the identical argument list. -/
theorem c1_std_args_pure (pkg : Pkg) (pf : PlatformFacts) (st st' : MutState) :
    (std_args_st pkg pf st).fst = (std_args_st pkg pf st').fst ∧
    (std_args_st pkg pf st).snd = st ∧
    (std_args_st pkg pf (std_args_st pkg pf st).snd).fst = (std_args_st pkg pf st).fst :=
  ⟨rfl, rfl, rfl⟩

/-- C10: `flags_to_build_system_args` unconditionally resets the
`cmake_flag_args` attribute before appending: two calls in succession leave
the attribute exactly as one call does, the value is `cmake_flag_args_of`
of the flags alone, and the previous attribute state does not influence it. -/
theorem c10_flags_to_build_system_args_idempotent (fl : Flags) (st st' : MutState) :
    (flags_to_build_system_args fl (flags_to_build_system_args fl st)).cmake_flag_args =
      (flags_to_build_system_args fl st).cmake_flag_args ∧
    (flags_to_build_system_args fl st).cmake_flag_args = some (cmake_flag_args_of fl) ∧
    (flags_to_build_system_args fl st).cmake_flag_args =
      (flags_to_build_system_args fl st').cmake_flag_args :=
  ⟨rfl, rfl, rfl⟩

/-- C8 counterexample: on a generator string containing a newline character
the code returns the component of the first line (regex `.` does not match
a newline), not the text after the final " - " separator of the whole
string, so the claim fails as universally stated. -/
theorem c8_counterexample :
    _extract_primary_generator "A - B\nC" = "B" ∧
    primary_component_spec "A - B\nC" = "B\nC" ∧
    _extract_primary_generator "A - B\nC" ≠ primary_component_spec "A - B\nC" :=
  ⟨by decide, by decide, by decide⟩

/-- C8 (amended): for every generator string free of newline characters,
`_extract_primary_generator` returns the primary component of the
"[secondary - ]primary" format: the entire string when it contains no
" - " separator, and the text following the final " - " separator
otherwise. -/
theorem c8_extract_primary_generator (g : String) (h : ∀ c ∈ g.data, c ≠ '\n') :
    _extract_primary_generator g = primary_component_spec g := by
  unfold _extract_primary_generator primary_component_spec
  rw [firstLineChars_eq_self h]

theorem c8_witness :
    (∀ c ∈ "Sublime Text 2 - Ninja".data, c ≠ '\n') ∧
    _extract_primary_generator "Sublime Text 2 - Ninja" =
      primary_component_spec "Sublime Text 2 - Ninja" ∧
    primary_component_spec "Sublime Text 2 - Ninja" = "Ninja" :=
  ⟨by decide, c8_extract_primary_generator "Sublime Text 2 - Ninja" (by decide), by decide⟩

/-- C9: when the generator attribute is any string other than exactly
"Unix Makefiles" or "Ninja", the build and install phases record no tool
invocation at all and return success with the state unchanged — no
generator validation happens in these phase methods. -/
theorem c9_build_install_silent (pkg : Pkg) (exec : ExecOracle) (st : ExecState)
    (h1 : generator_of pkg ≠ "Unix Makefiles") (h2 : generator_of pkg ≠ "Ninja") :
    buildPhase pkg exec st = (Except.ok (), st) ∧
    installPhase pkg exec st = (Except.ok (), st) := by
  constructor <;>
    simp [buildPhase, installPhase, with_working_dir, skipE, if_neg h1, if_neg h2]

theorem c9_witness :
    buildPhase pkgXcode execOk stSimple = (Except.ok (), stSimple) ∧
    installPhase pkgXcode execOk stSimple = (Except.ok (), stSimple) :=
  c9_build_install_silent pkgXcode execOk stSimple (by decide) (by decide)

/-- C7: every phase (cmake, build, install, check) issues its external-tool
invocations with the working directory set to the node's private build
directory `<stage path>/spack-build`, and the prior working directory is
restored on every exit path — including an exception raised while computing
the cmake options and a failing external tool. -/
theorem c7_phase_workdir_scoped (pkg : Pkg) (pf : PlatformFacts) (mst : MutState)
    (exec : ExecOracle) (phase : EAction)
    (hphase : phase ∈ [cmakePhase pkg pf mst exec, buildPhase pkg exec,
                       installPhase pkg exec, checkPhase pkg exec])
    (st : ExecState) :
    (phase st).snd.cwd = st.cwd ∧
    (∃ new, (phase st).snd.trace = st.trace ++ new ∧
       ∀ inv ∈ new, inv.cwd = build_directory pkg) ∧
    (pkg.stage_path ≠ "" → ends_with_slash pkg.stage_path = false →
       build_directory pkg = pkg.stage_path ++ "/spack-build") := by
  have hdir : pkg.stage_path ≠ "" → ends_with_slash pkg.stage_path = false →
      build_directory pkg = pkg.stage_path ++ "/spack-build" := by
    intro h1 h2
    unfold build_directory os_path_join
    rw [if_neg h1, if_neg (by simp [h2]), String.append_assoc]
    rfl
  simp only [List.mem_cons, List.not_mem_nil, or_false] at hphase
  rcases hphase with h | h | h | h <;> subst h
  · cases hsc : std_cmake_args pkg pf mst with
    | error e =>
      have hcp : cmakePhase pkg pf mst exec st = (Except.error e, st) := by
        unfold cmakePhase
        rw [hsc]
      rw [hcp]
      exact ⟨rfl, ⟨[], by simp, by simp⟩, hdir⟩
    | ok opts =>
      have hcp : cmakePhase pkg pf mst exec st =
          with_working_dir (build_directory pkg)
            (run_tool exec "cmake"
              (os_abspath st.cwd (root_cmakelists_dir pkg) :: (opts ++ pkg.cmake_args_list))) st := by
        unfold cmakePhase
        rw [hsc]
      rw [hcp]
      rcases with_working_dir_parts _ _ (run_tool_stable _ _ _) st with ⟨hc, hrest⟩
      exact ⟨hc, hrest, hdir⟩
  · rcases with_working_dir_parts _ _ (buildPhase_body_stable pkg exec) st with ⟨hc, hrest⟩
    exact ⟨hc, hrest, hdir⟩
  · rcases with_working_dir_parts _ _ (installPhase_body_stable pkg exec) st with ⟨hc, hrest⟩
    exact ⟨hc, hrest, hdir⟩
  · rcases with_working_dir_parts _ _ (checkPhase_body_stable pkg exec) st with ⟨hc, hrest⟩
    exact ⟨hc, hrest, hdir⟩

theorem c7_witness :
    ((buildPhase pkgSimple execOk) stSimple).snd.cwd = stSimple.cwd ∧
    (∃ new, ((buildPhase pkgSimple execOk) stSimple).snd.trace = stSimple.trace ++ new ∧
       ∀ inv ∈ new, inv.cwd = build_directory pkgSimple) ∧
    (pkgSimple.stage_path ≠ "" → ends_with_slash pkgSimple.stage_path = false →
       build_directory pkgSimple = pkgSimple.stage_path ++ "/spack-build") :=
  c7_phase_workdir_scoped pkgSimple pfSimple ⟨none⟩ execOk _
    (List.mem_cons_of_mem _ (List.mem_cons_self _ _)) stSimple

/-- C2: a generator string whose primary component is outside the
declared-legal set {"Unix Makefiles", "Ninja"} makes `_std_args` raise the
unsupported-generator error, and the orchestrated phase pipeline of the node
then returns that error with no tool invocation recorded; a generator
string with a legal primary component raises no such error. -/
theorem c2_unsupported_generator_rejected (pkg : Pkg) (pf : PlatformFacts) (mst : MutState)
    (exec : ExecOracle) (st : ExecState) :
    (_extract_primary_generator (generator_of pkg) ∉ valid_primary_generators →
       std_args pkg pf = Except.error (invalid_generator_msg (generator_of pkg)) ∧
       run_phases pkg pf mst exec st =
         (Except.error (invalid_generator_msg (generator_of pkg)), st)) ∧
    (_extract_primary_generator (generator_of pkg) ∈ valid_primary_generators →
       ∃ args, std_args pkg pf = Except.ok args) := by
  constructor
  · intro h
    have hstd : std_args pkg pf = Except.error (invalid_generator_msg (generator_of pkg)) := by
      simp only [std_args]
      rw [if_pos h]
    have hsc : std_cmake_args pkg pf mst =
        Except.error (invalid_generator_msg (generator_of pkg)) := by
      unfold std_cmake_args
      rw [hstd]
      rfl
    have hcp : cmakePhase pkg pf mst exec st =
        (Except.error (invalid_generator_msg (generator_of pkg)), st) := by
      unfold cmakePhase
      rw [hsc]
    refine ⟨hstd, ?_⟩
    unfold run_phases seqE
    rw [hcp]
  · intro h
    simp only [std_args]
    rw [if_neg (not_not_intro h)]
    exact ⟨_, rfl⟩

theorem c2_witness :
    std_args pkgXcode pfSimple =
      Except.error (invalid_generator_msg (generator_of pkgXcode)) ∧
    run_phases pkgXcode pfSimple ⟨none⟩ execOk stSimple =
      (Except.error (invalid_generator_msg (generator_of pkgXcode)), stSimple) :=
  (c2_unsupported_generator_rejected pkgXcode pfSimple ⟨none⟩ execOk stSimple).1 (by decide)

/-- Inversion of a successful `_std_args` run: the produced list has the
literal shape of the source's `args` accumulation. -/
theorem std_args_ok_shape (pkg : Pkg) (pf : PlatformFacts) (args : List String)
    (hok : std_args pkg pf = Except.ok args) :
    args =
      (["-G", generator_of pkg,
        "-DCMAKE_INSTALL_PREFIX:PATH=" ++ pkg.prefix_path,
        "-DCMAKE_BUILD_TYPE:STRING=" ++ build_type_of pkg.spec]
       ++ (if _extract_primary_generator (generator_of pkg) = "Unix Makefiles" then
             ["-DCMAKE_VERBOSE_MAKEFILE:BOOL=ON"] else [])
       ++ (if pf.isMac then
             ["-DCMAKE_FIND_FRAMEWORK:STRING=LAST",
              "-DCMAKE_FIND_APPBUNDLE:STRING=LAST",
              "-DCMAKE_MACOSX_RPATH:BOOL=ON"] else [])
       ++ ["-DCMAKE_INSTALL_RPATH_USE_LINK_PATH:BOOL=FALSE",
           "-DCMAKE_INSTALL_RPATH:STRING=" ++
             (if pf.isMac then
                String.intercalate ";" [String.intercalate ";" pkg.rpaths, "@rpath"]
              else String.intercalate ";" pkg.rpaths)])
      ++ ["-DCMAKE_PREFIX_PATH:STRING=" ++
          String.intercalate ";" (filter_system_paths pf.system_paths pkg.spec.dep_prefixes)] := by
  by_cases h : _extract_primary_generator (generator_of pkg) ∉ valid_primary_generators
  · simp only [std_args] at hok
    rw [if_pos h] at hok
    exact Except.noConfusion hok
  · simp only [std_args] at hok
    rw [if_neg h] at hok
    exact (Except.ok.inj hok).symm

/-- C3 counterexample: the claim's "exactly one install-prefix assignment"
fails as universally stated — a package whose generator attribute is itself
the exact install-prefix assignment string (its primary component "Ninja"
passes validation) yields a successful argument list in which that string
occurs twice, once as the value of `-G` and once as the real assignment. -/
theorem c3_counterexample :
    except_is_ok (std_args pkgColl pfSimple) = true ∧
    (okOr (std_args pkgColl pfSimple) []).count
      ("-DCMAKE_INSTALL_PREFIX:PATH=" ++ pkgColl.prefix_path) = 2 :=
  ⟨by decide, by decide⟩

/-- C3 (amended): provided the generator string is not itself the exact
install-prefix or build-type assignment string (the `-G` value is the only
other element that can collide with them), every successful standard
argument list contains exactly one install-prefix assignment and exactly
one build-type assignment; the build type is the spec's `build_type`
variant value when that variant is present and "RelWithDebInfo" when it is
absent, the declared legal values being Debug, Release, RelWithDebInfo,
MinSizeRel with declared default RelWithDebInfo. -/
theorem c3_unique_prefix_and_build_type (pkg : Pkg) (pf : PlatformFacts) (args : List String)
    (hok : std_args pkg pf = Except.ok args)
    (hg1 : generator_of pkg ≠ "-DCMAKE_INSTALL_PREFIX:PATH=" ++ pkg.prefix_path)
    (hg2 : generator_of pkg ≠ "-DCMAKE_BUILD_TYPE:STRING=" ++ build_type_of pkg.spec) :
    args.count ("-DCMAKE_INSTALL_PREFIX:PATH=" ++ pkg.prefix_path) = 1 ∧
    args.count ("-DCMAKE_BUILD_TYPE:STRING=" ++ build_type_of pkg.spec) = 1 ∧
    (∀ v, List.lookup "build_type" pkg.spec.variants = some v → build_type_of pkg.spec = v) ∧
    (List.lookup "build_type" pkg.spec.variants = none →
       build_type_of pkg.spec = "RelWithDebInfo") ∧
    cmake_build_type_default = "RelWithDebInfo" ∧
    cmake_build_type_values = ["Debug", "Release", "RelWithDebInfo", "MinSizeRel"] := by
  have hargs := std_args_ok_shape pkg pf args hok
  subst hargs
  refine ⟨?_, ?_, ?_, ?_, rfl, rfl⟩
  · have n1 : ("-G" : String) ≠ "-DCMAKE_INSTALL_PREFIX:PATH=" ++ pkg.prefix_path :=
      lit_ne_append _ _ _ 1 'G' 'D' (by decide) (by decide) (by decide)
    have n3 : ("-DCMAKE_BUILD_TYPE:STRING=" ++ build_type_of pkg.spec) ≠
        "-DCMAKE_INSTALL_PREFIX:PATH=" ++ pkg.prefix_path :=
      appends_ne _ _ _ _ 8 'B' 'I' (by decide) (by decide) (by decide)
    have n4 : ("-DCMAKE_VERBOSE_MAKEFILE:BOOL=ON" : String) ≠
        "-DCMAKE_INSTALL_PREFIX:PATH=" ++ pkg.prefix_path :=
      lit_ne_append _ _ _ 8 'V' 'I' (by decide) (by decide) (by decide)
    have n5 : ("-DCMAKE_FIND_FRAMEWORK:STRING=LAST" : String) ≠
        "-DCMAKE_INSTALL_PREFIX:PATH=" ++ pkg.prefix_path :=
      lit_ne_append _ _ _ 8 'F' 'I' (by decide) (by decide) (by decide)
    have n6 : ("-DCMAKE_FIND_APPBUNDLE:STRING=LAST" : String) ≠
        "-DCMAKE_INSTALL_PREFIX:PATH=" ++ pkg.prefix_path :=
      lit_ne_append _ _ _ 8 'F' 'I' (by decide) (by decide) (by decide)
    have n7 : ("-DCMAKE_MACOSX_RPATH:BOOL=ON" : String) ≠
        "-DCMAKE_INSTALL_PREFIX:PATH=" ++ pkg.prefix_path :=
      lit_ne_append _ _ _ 8 'M' 'I' (by decide) (by decide) (by decide)
    have n8 : ("-DCMAKE_INSTALL_RPATH_USE_LINK_PATH:BOOL=FALSE" : String) ≠
        "-DCMAKE_INSTALL_PREFIX:PATH=" ++ pkg.prefix_path :=
      lit_ne_append _ _ _ 16 'R' 'P' (by decide) (by decide) (by decide)
    have n9 : ∀ r : String, ("-DCMAKE_INSTALL_RPATH:STRING=" ++ r) ≠
        "-DCMAKE_INSTALL_PREFIX:PATH=" ++ pkg.prefix_path := fun r =>
      appends_ne _ _ _ _ 16 'R' 'P' (by decide) (by decide) (by decide)
    have n10 : ∀ r : String, ("-DCMAKE_PREFIX_PATH:STRING=" ++ r) ≠
        "-DCMAKE_INSTALL_PREFIX:PATH=" ++ pkg.prefix_path := fun r =>
      appends_ne _ _ _ _ 8 'P' 'I' (by decide) (by decide) (by decide)
    by_cases hum : _extract_primary_generator (generator_of pkg) = "Unix Makefiles" <;>
      by_cases hmac : pf.isMac = true <;>
        simp [hum, hmac, List.count_append, List.count_cons, beq_iff_eq,
          n1, hg1, n3, n4, n5, n6, n7, n8, n9, n10]
  · have n1 : ("-G" : String) ≠ "-DCMAKE_BUILD_TYPE:STRING=" ++ build_type_of pkg.spec :=
      lit_ne_append _ _ _ 1 'G' 'D' (by decide) (by decide) (by decide)
    have n3 : ("-DCMAKE_INSTALL_PREFIX:PATH=" ++ pkg.prefix_path) ≠
        "-DCMAKE_BUILD_TYPE:STRING=" ++ build_type_of pkg.spec :=
      appends_ne _ _ _ _ 8 'I' 'B' (by decide) (by decide) (by decide)
    have n4 : ("-DCMAKE_VERBOSE_MAKEFILE:BOOL=ON" : String) ≠
        "-DCMAKE_BUILD_TYPE:STRING=" ++ build_type_of pkg.spec :=
      lit_ne_append _ _ _ 8 'V' 'B' (by decide) (by decide) (by decide)
    have n5 : ("-DCMAKE_FIND_FRAMEWORK:STRING=LAST" : String) ≠
        "-DCMAKE_BUILD_TYPE:STRING=" ++ build_type_of pkg.spec :=
      lit_ne_append _ _ _ 8 'F' 'B' (by decide) (by decide) (by decide)
    have n6 : ("-DCMAKE_FIND_APPBUNDLE:STRING=LAST" : String) ≠
        "-DCMAKE_BUILD_TYPE:STRING=" ++ build_type_of pkg.spec :=
      lit_ne_append _ _ _ 8 'F' 'B' (by decide) (by decide) (by decide)
    have n7 : ("-DCMAKE_MACOSX_RPATH:BOOL=ON" : String) ≠
        "-DCMAKE_BUILD_TYPE:STRING=" ++ build_type_of pkg.spec :=
      lit_ne_append _ _ _ 8 'M' 'B' (by decide) (by decide) (by decide)
    have n8 : ("-DCMAKE_INSTALL_RPATH_USE_LINK_PATH:BOOL=FALSE" : String) ≠
        "-DCMAKE_BUILD_TYPE:STRING=" ++ build_type_of pkg.spec :=
      lit_ne_append _ _ _ 8 'I' 'B' (by decide) (by decide) (by decide)
    have n9 : ∀ r : String, ("-DCMAKE_INSTALL_RPATH:STRING=" ++ r) ≠
        "-DCMAKE_BUILD_TYPE:STRING=" ++ build_type_of pkg.spec := fun r =>
      appends_ne _ _ _ _ 8 'I' 'B' (by decide) (by decide) (by decide)
    have n10 : ∀ r : String, ("-DCMAKE_PREFIX_PATH:STRING=" ++ r) ≠
        "-DCMAKE_BUILD_TYPE:STRING=" ++ build_type_of pkg.spec := fun r =>
      appends_ne _ _ _ _ 8 'P' 'B' (by decide) (by decide) (by decide)
    by_cases hum : _extract_primary_generator (generator_of pkg) = "Unix Makefiles" <;>
      by_cases hmac : pf.isMac = true <;>
        simp [hum, hmac, List.count_append, List.count_cons, beq_iff_eq,
          n1, hg2, n3, n4, n5, n6, n7, n8, n9, n10]
  · intro v hv
    simp [build_type_of, hv]
  · intro hv
    simp [build_type_of, hv]

theorem c3_witness :
    (["-G", "Unix Makefiles",
      "-DCMAKE_INSTALL_PREFIX:PATH=/opt/pkg",
      "-DCMAKE_BUILD_TYPE:STRING=RelWithDebInfo",
      "-DCMAKE_VERBOSE_MAKEFILE:BOOL=ON",
      "-DCMAKE_INSTALL_RPATH_USE_LINK_PATH:BOOL=FALSE",
      "-DCMAKE_INSTALL_RPATH:STRING=",
      "-DCMAKE_PREFIX_PATH:STRING="] : List String).count
        ("-DCMAKE_INSTALL_PREFIX:PATH=" ++ pkgSimple.prefix_path) = 1 ∧
    (["-G", "Unix Makefiles",
      "-DCMAKE_INSTALL_PREFIX:PATH=/opt/pkg",
      "-DCMAKE_BUILD_TYPE:STRING=RelWithDebInfo",
      "-DCMAKE_VERBOSE_MAKEFILE:BOOL=ON",
      "-DCMAKE_INSTALL_RPATH_USE_LINK_PATH:BOOL=FALSE",
      "-DCMAKE_INSTALL_RPATH:STRING=",
      "-DCMAKE_PREFIX_PATH:STRING="] : List String).count
        ("-DCMAKE_BUILD_TYPE:STRING=" ++ build_type_of pkgSimple.spec) = 1 ∧
    (∀ v, List.lookup "build_type" pkgSimple.spec.variants = some v →
       build_type_of pkgSimple.spec = v) ∧
    (List.lookup "build_type" pkgSimple.spec.variants = none →
       build_type_of pkgSimple.spec = "RelWithDebInfo") ∧
    cmake_build_type_default = "RelWithDebInfo" ∧
    cmake_build_type_values = ["Debug", "Release", "RelWithDebInfo", "MinSizeRel"] :=
  c3_unique_prefix_and_build_type pkgSimple pfSimple _ (by decide) (by decide) (by decide)

/-- C5: the last element of every successful standard argument list is the
CMAKE_PREFIX_PATH assignment, whose value is the ';'-join of the build/link
dependency install prefixes after deduplication and removal of system
default search paths: the filtered list has no duplicates, is an
order-preserving sublist of the dependency prefixes (dependency order),
contains no system path, and retains every non-system dependency prefix. -/
theorem c5_cmake_prefix_path (pkg : Pkg) (pf : PlatformFacts) (args : List String)
    (hok : std_args pkg pf = Except.ok args) :
    args.getLast? = some ("-DCMAKE_PREFIX_PATH:STRING=" ++
      String.intercalate ";" (filter_system_paths pf.system_paths pkg.spec.dep_prefixes)) ∧
    (filter_system_paths pf.system_paths pkg.spec.dep_prefixes).Nodup ∧
    List.Sublist (filter_system_paths pf.system_paths pkg.spec.dep_prefixes)
      pkg.spec.dep_prefixes ∧
    (∀ p ∈ filter_system_paths pf.system_paths pkg.spec.dep_prefixes,
       p ∉ pf.system_paths) ∧
    (∀ p ∈ pkg.spec.dep_prefixes, p ∉ pf.system_paths →
       p ∈ filter_system_paths pf.system_paths pkg.spec.dep_prefixes) := by
  have hargs := std_args_ok_shape pkg pf args hok
  subst hargs
  refine ⟨List.getLast?_concat _, dedupKeepFirst_nodup _ _, ?_, ?_, ?_⟩
  · exact (dedupKeepFirst_sublist _ _).trans (List.filter_sublist _)
  · intro p hp
    have hpf : p ∈ List.filter (fun q => !(pf.system_paths.contains q))
        pkg.spec.dep_prefixes := (dedupKeepFirst_sublist _ _).subset hp
    have := List.of_mem_filter hpf
    simpa using this
  · intro p hp hns
    apply dedupKeepFirst_mem_of
    · exact List.mem_filter.mpr ⟨hp, by simpa using hns⟩
    · simp

theorem c5_witness :
    (["-G", "Unix Makefiles",
      "-DCMAKE_INSTALL_PREFIX:PATH=/opt/pkg",
      "-DCMAKE_BUILD_TYPE:STRING=RelWithDebInfo",
      "-DCMAKE_VERBOSE_MAKEFILE:BOOL=ON",
      "-DCMAKE_INSTALL_RPATH_USE_LINK_PATH:BOOL=FALSE",
      "-DCMAKE_INSTALL_RPATH:STRING=",
      "-DCMAKE_PREFIX_PATH:STRING=/opt/a;/opt/b"] : List String).getLast? =
        some ("-DCMAKE_PREFIX_PATH:STRING=" ++ String.intercalate ";"
          (filter_system_paths pfUsr.system_paths pkgDeps.spec.dep_prefixes)) ∧
    (filter_system_paths pfUsr.system_paths pkgDeps.spec.dep_prefixes).Nodup ∧
    List.Sublist (filter_system_paths pfUsr.system_paths pkgDeps.spec.dep_prefixes)
      pkgDeps.spec.dep_prefixes ∧
    (∀ p ∈ filter_system_paths pfUsr.system_paths pkgDeps.spec.dep_prefixes,
       p ∉ pfUsr.system_paths) ∧
    (∀ p ∈ pkgDeps.spec.dep_prefixes, p ∉ pfUsr.system_paths →
       p ∈ filter_system_paths pfUsr.system_paths pkgDeps.spec.dep_prefixes) :=
  c5_cmake_prefix_path pkgDeps pfUsr _ (by decide)

/-- No string distinct from each linker-flag assignment is in the
linker-flags group of the translated flags. -/
theorem not_mem_ld_part (fl : Flags) (T : String)
    (h1 : T ≠ "-DCMAKE_" ++ "EXE" ++ "_LINKER_FLAGS=" ++ joinSpace fl.ldflags)
    (h2 : T ≠ "-DCMAKE_" ++ "MODULE" ++ "_LINKER_FLAGS=" ++ joinSpace fl.ldflags)
    (h3 : T ≠ "-DCMAKE_" ++ "SHARED" ++ "_LINKER_FLAGS=" ++ joinSpace fl.ldflags)
    (h4 : T ≠ "-DCMAKE_" ++ "STATIC" ++ "_LINKER_FLAGS=" ++ joinSpace fl.ldflags) :
    T ∉ (if fl.ldflags = [] then ([] : List String) else
        ["EXE", "MODULE", "SHARED", "STATIC"].map
          (fun t => "-DCMAKE_" ++ t ++ "_LINKER_FLAGS=" ++ joinSpace fl.ldflags)) := by
  split
  · simp
  · intro hmem
    simp only [List.map_cons, List.map_nil, List.mem_cons, List.not_mem_nil, or_false] at hmem
    rcases hmem with h | h | h | h
    · exact h1 h
    · exact h2 h
    · exact h3 h
    · exact h4 h

/-- Same for the standard-libraries group. -/
theorem not_mem_libs_part (fl : Flags) (T : String)
    (h1 : T ≠ "-DCMAKE_" ++ "C" ++ "_STANDARD_LIBRARIES=" ++ joinSpace fl.ldlibs)
    (h2 : T ≠ "-DCMAKE_" ++ "CXX" ++ "_STANDARD_LIBRARIES=" ++ joinSpace fl.ldlibs)
    (h3 : T ≠ "-DCMAKE_" ++ "Fortran" ++ "_STANDARD_LIBRARIES=" ++ joinSpace fl.ldlibs) :
    T ∉ (if fl.ldlibs = [] then ([] : List String) else
        ["C", "CXX", "Fortran"].map
          (fun l => "-DCMAKE_" ++ l ++ "_STANDARD_LIBRARIES=" ++ joinSpace fl.ldlibs)) := by
  split
  · simp
  · intro hmem
    simp only [List.map_cons, List.map_nil, List.mem_cons, List.not_mem_nil, or_false] at hmem
    rcases hmem with h | h | h
    · exact h1 h
    · exact h2 h
    · exact h3 h

/-- Resolve one entry of the per-language filterMap: it yields a result
exactly when the joined string is non-empty, and the result is the
corresponding flag assignment. -/
theorem filterMap_entry_resolve {fl : Flags} {L T : String} {lst : List String}
    (hfa : (fun p : String × List String =>
        let lf := joinSpace (p.snd ++ fl.cppflags)
        if lf = "" then none else some ("-DCMAKE_" ++ p.fst ++ "_FLAGS=" ++ lf)) (L, lst) =
      some T) :
    joinSpace (lst ++ fl.cppflags) ≠ "" ∧
    T = "-DCMAKE_" ++ L ++ "_FLAGS=" ++ joinSpace (lst ++ fl.cppflags) := by
  have hfa2 : (if joinSpace (lst ++ fl.cppflags) = "" then none
      else some ("-DCMAKE_" ++ L ++ "_FLAGS=" ++ joinSpace (lst ++ fl.cppflags))) = some T := hfa
  split at hfa2
  · exact Option.noConfusion hfa2
  · exact ⟨by assumption, (Option.some.inj hfa2).symm⟩

/-- Emit one entry of the per-language filterMap when the joined string is
non-empty. -/
theorem filterMap_entry_emit {fl : Flags} {L : String} {lst : List String}
    (hJ : joinSpace (lst ++ fl.cppflags) ≠ "") :
    (fun p : String × List String =>
        let lf := joinSpace (p.snd ++ fl.cppflags)
        if lf = "" then none else some ("-DCMAKE_" ++ p.fst ++ "_FLAGS=" ++ lf)) (L, lst) =
      some ("-DCMAKE_" ++ L ++ "_FLAGS=" ++ joinSpace (lst ++ fl.cppflags)) := by
  show (if joinSpace (lst ++ fl.cppflags) = "" then none
      else some ("-DCMAKE_" ++ L ++ "_FLAGS=" ++ joinSpace (lst ++ fl.cppflags))) =
    some ("-DCMAKE_" ++ L ++ "_FLAGS=" ++ joinSpace (lst ++ fl.cppflags))
  rw [if_neg hJ]

/-- C4: `flags_to_build_system_args` appends the shared cppflags group to
each per-language group (C, CXX, Fortran) and emits the
`-DCMAKE_<LANG>_FLAGS=<flags>` assignment for a language exactly when that
language's combined flag string is non-empty. -/
theorem c4_flags_translation (fl : Flags) (lang : String) (ls : List String)
    (h : (lang, ls) ∈ lang_flag_lists fl) :
    (("-DCMAKE_" ++ lang ++ "_FLAGS=" ++ joinSpace (ls ++ fl.cppflags)) ∈ cmake_flag_args_of fl)
      ↔ joinSpace (ls ++ fl.cppflags) ≠ "" := by
  have hld0 : ∀ x : String, ("-DCMAKE_" ++ "C" ++ "_FLAGS=" ++ x) ∉
      (if fl.ldflags = [] then ([] : List String) else
        ["EXE", "MODULE", "SHARED", "STATIC"].map
          (fun t => "-DCMAKE_" ++ t ++ "_LINKER_FLAGS=" ++ joinSpace fl.ldflags)) := fun x =>
    not_mem_ld_part fl _
      (appends_ne _ _ _ _ 8 'C' 'E' (by decide) (by decide) (by decide))
      (appends_ne _ _ _ _ 8 'C' 'M' (by decide) (by decide) (by decide))
      (appends_ne _ _ _ _ 8 'C' 'S' (by decide) (by decide) (by decide))
      (appends_ne _ _ _ _ 8 'C' 'S' (by decide) (by decide) (by decide))
  have hld1 : ∀ x : String, ("-DCMAKE_" ++ "CXX" ++ "_FLAGS=" ++ x) ∉
      (if fl.ldflags = [] then ([] : List String) else
        ["EXE", "MODULE", "SHARED", "STATIC"].map
          (fun t => "-DCMAKE_" ++ t ++ "_LINKER_FLAGS=" ++ joinSpace fl.ldflags)) := fun x =>
    not_mem_ld_part fl _
      (appends_ne _ _ _ _ 8 'C' 'E' (by decide) (by decide) (by decide))
      (appends_ne _ _ _ _ 8 'C' 'M' (by decide) (by decide) (by decide))
      (appends_ne _ _ _ _ 8 'C' 'S' (by decide) (by decide) (by decide))
      (appends_ne _ _ _ _ 8 'C' 'S' (by decide) (by decide) (by decide))
  have hld2 : ∀ x : String, ("-DCMAKE_" ++ "Fortran" ++ "_FLAGS=" ++ x) ∉
      (if fl.ldflags = [] then ([] : List String) else
        ["EXE", "MODULE", "SHARED", "STATIC"].map
          (fun t => "-DCMAKE_" ++ t ++ "_LINKER_FLAGS=" ++ joinSpace fl.ldflags)) := fun x =>
    not_mem_ld_part fl _
      (appends_ne _ _ _ _ 8 'F' 'E' (by decide) (by decide) (by decide))
      (appends_ne _ _ _ _ 8 'F' 'M' (by decide) (by decide) (by decide))
      (appends_ne _ _ _ _ 8 'F' 'S' (by decide) (by decide) (by decide))
      (appends_ne _ _ _ _ 8 'F' 'S' (by decide) (by decide) (by decide))
  have hlb0 : ∀ x : String, ("-DCMAKE_" ++ "C" ++ "_FLAGS=" ++ x) ∉
      (if fl.ldlibs = [] then ([] : List String) else
        ["C", "CXX", "Fortran"].map
          (fun l => "-DCMAKE_" ++ l ++ "_STANDARD_LIBRARIES=" ++ joinSpace fl.ldlibs)) := fun x =>
    not_mem_libs_part fl _
      (appends_ne _ _ _ _ 10 'F' 'S' (by decide) (by decide) (by decide))
      (appends_ne _ _ _ _ 9 '_' 'X' (by decide) (by decide) (by decide))
      (appends_ne _ _ _ _ 8 'C' 'F' (by decide) (by decide) (by decide))
  have hlb1 : ∀ x : String, ("-DCMAKE_" ++ "CXX" ++ "_FLAGS=" ++ x) ∉
      (if fl.ldlibs = [] then ([] : List String) else
        ["C", "CXX", "Fortran"].map
          (fun l => "-DCMAKE_" ++ l ++ "_STANDARD_LIBRARIES=" ++ joinSpace fl.ldlibs)) := fun x =>
    not_mem_libs_part fl _
      (appends_ne _ _ _ _ 9 'X' '_' (by decide) (by decide) (by decide))
      (appends_ne _ _ _ _ 12 'F' 'S' (by decide) (by decide) (by decide))
      (appends_ne _ _ _ _ 8 'C' 'F' (by decide) (by decide) (by decide))
  have hlb2 : ∀ x : String, ("-DCMAKE_" ++ "Fortran" ++ "_FLAGS=" ++ x) ∉
      (if fl.ldlibs = [] then ([] : List String) else
        ["C", "CXX", "Fortran"].map
          (fun l => "-DCMAKE_" ++ l ++ "_STANDARD_LIBRARIES=" ++ joinSpace fl.ldlibs)) := fun x =>
    not_mem_libs_part fl _
      (appends_ne _ _ _ _ 8 'F' 'C' (by decide) (by decide) (by decide))
      (appends_ne _ _ _ _ 8 'F' 'C' (by decide) (by decide) (by decide))
      (appends_ne _ _ _ _ 16 'F' 'S' (by decide) (by decide) (by decide))
  simp only [lang_flag_lists, List.mem_cons, List.not_mem_nil, or_false, Prod.mk.injEq] at h
  rcases h with ⟨rfl, rfl⟩ | ⟨rfl, rfl⟩ | ⟨rfl, rfl⟩
  · constructor
    · intro hmem hJeq
      unfold cmake_flag_args_of at hmem
      rcases List.mem_append.mp hmem with hab | hc
      · rcases List.mem_append.mp hab with ha | hb
        · rcases List.mem_filterMap.mp ha with ⟨a, ha2, hfa⟩
          simp only [lang_flag_lists, List.mem_cons, List.not_mem_nil, or_false] at ha2
          rcases ha2 with rfl | rfl | rfl
          · exact (filterMap_entry_resolve hfa).1 hJeq
          · exact appends_ne ("-DCMAKE_" ++ "C" ++ "_FLAGS=")
              ("-DCMAKE_" ++ "CXX" ++ "_FLAGS=") _ _ 9 '_' 'X'
              (by decide) (by decide) (by decide) (filterMap_entry_resolve hfa).2
          · exact appends_ne ("-DCMAKE_" ++ "C" ++ "_FLAGS=")
              ("-DCMAKE_" ++ "Fortran" ++ "_FLAGS=") _ _ 8 'C' 'F'
              (by decide) (by decide) (by decide) (filterMap_entry_resolve hfa).2
        · exact hld0 _ hb
      · exact hlb0 _ hc
    · intro hJ
      unfold cmake_flag_args_of
      exact List.mem_append.mpr (Or.inl (List.mem_append.mpr (Or.inl
        (List.mem_filterMap.mpr ⟨("C", fl.cflags), by simp [lang_flag_lists],
          filterMap_entry_emit hJ⟩))))
  · constructor
    · intro hmem hJeq
      unfold cmake_flag_args_of at hmem
      rcases List.mem_append.mp hmem with hab | hc
      · rcases List.mem_append.mp hab with ha | hb
        · rcases List.mem_filterMap.mp ha with ⟨a, ha2, hfa⟩
          simp only [lang_flag_lists, List.mem_cons, List.not_mem_nil, or_false] at ha2
          rcases ha2 with rfl | rfl | rfl
          · exact appends_ne ("-DCMAKE_" ++ "CXX" ++ "_FLAGS=")
              ("-DCMAKE_" ++ "C" ++ "_FLAGS=") _ _ 9 'X' '_'
              (by decide) (by decide) (by decide) (filterMap_entry_resolve hfa).2
          · exact (filterMap_entry_resolve hfa).1 hJeq
          · exact appends_ne ("-DCMAKE_" ++ "CXX" ++ "_FLAGS=")
              ("-DCMAKE_" ++ "Fortran" ++ "_FLAGS=") _ _ 8 'C' 'F'
              (by decide) (by decide) (by decide) (filterMap_entry_resolve hfa).2
        · exact hld1 _ hb
      · exact hlb1 _ hc
    · intro hJ
      unfold cmake_flag_args_of
      exact List.mem_append.mpr (Or.inl (List.mem_append.mpr (Or.inl
        (List.mem_filterMap.mpr ⟨("CXX", fl.cxxflags), by simp [lang_flag_lists],
          filterMap_entry_emit hJ⟩))))
  · constructor
    · intro hmem hJeq
      unfold cmake_flag_args_of at hmem
      rcases List.mem_append.mp hmem with hab | hc
      · rcases List.mem_append.mp hab with ha | hb
        · rcases List.mem_filterMap.mp ha with ⟨a, ha2, hfa⟩
          simp only [lang_flag_lists, List.mem_cons, List.not_mem_nil, or_false] at ha2
          rcases ha2 with rfl | rfl | rfl
          · exact appends_ne ("-DCMAKE_" ++ "Fortran" ++ "_FLAGS=")
              ("-DCMAKE_" ++ "C" ++ "_FLAGS=") _ _ 8 'F' 'C'
              (by decide) (by decide) (by decide) (filterMap_entry_resolve hfa).2
          · exact appends_ne ("-DCMAKE_" ++ "Fortran" ++ "_FLAGS=")
              ("-DCMAKE_" ++ "CXX" ++ "_FLAGS=") _ _ 8 'F' 'C'
              (by decide) (by decide) (by decide) (filterMap_entry_resolve hfa).2
          · exact (filterMap_entry_resolve hfa).1 hJeq
        · exact hld2 _ hb
      · exact hlb2 _ hc
    · intro hJ
      unfold cmake_flag_args_of
      exact List.mem_append.mpr (Or.inl (List.mem_append.mpr (Or.inl
        (List.mem_filterMap.mpr ⟨("Fortran", fl.fflags), by simp [lang_flag_lists],
          filterMap_entry_emit hJ⟩))))

theorem c4_witness :
    ((("-DCMAKE_" ++ "C" ++ "_FLAGS=" ++ joinSpace (["-O2"] ++ flSimple.cppflags)) ∈
        cmake_flag_args_of flSimple)
      ↔ joinSpace (["-O2"] ++ flSimple.cppflags) ≠ "") :=
  c4_flags_translation flSimple "C" ["-O2"] (by decide)

theorem charAt_append_ne (p x : String) (i : Nat) (c d : Char)
    (hp : p.data[i]? = some c) (hcd : c ≠ d) : (p ++ x).data[i]? ≠ some d := by
  rw [charAt_append x hp]
  intro h
  exact hcd (Option.some.inj h)

/-! The arguments of every non-arpack block of `configure_args` are
distinguishable from the three arpack arguments. -/

theorem octave_blas_arpackish (s : OctaveSpec) : ∀ e ∈ octave_blas_args s, NotArpackish e := by
  intro e he
  simp only [octave_blas_args, List.mem_cons, List.not_mem_nil, or_false] at he
  rcases he with rfl | rfl
  · exact ⟨Or.inr (charAt_append_ne "--with-blas=" _ 7 'b' 'a' (by decide) (by decide)),
           Or.inl (charAt_append_ne "--with-blas=" _ 9 'a' '-' (by decide) (by decide))⟩
  · exact ⟨Or.inr (charAt_append_ne "--with-lapack=" _ 7 'l' 'a' (by decide) (by decide)),
           Or.inl (charAt_append_ne "--with-lapack=" _ 9 'p' '-' (by decide) (by decide))⟩

theorem octave_readline_arpackish (s : OctaveSpec) :
    ∀ e ∈ octave_readline_args s, NotArpackish e := by
  intro e he
  unfold octave_readline_args at he
  split at he <;> simp only [List.mem_cons, List.not_mem_nil, or_false] at he <;> subst he <;>
    decide

theorem octave_curl_arpackish (s : OctaveSpec) : ∀ e ∈ octave_curl_args s, NotArpackish e := by
  intro e he
  unfold octave_curl_args at he
  split at he <;> simp only [List.mem_cons, List.not_mem_nil, or_false] at he
  · rcases he with rfl | rfl
    · exact ⟨Or.inr (charAt_append_ne "--with-curl-includedir=" _ 7 'c' 'a' (by decide) (by decide)),
             Or.inl (charAt_append_ne "--with-curl-includedir=" _ 9 'r' '-' (by decide) (by decide))⟩
    · exact ⟨Or.inr (charAt_append_ne "--with-curl-libdir=" _ 7 'c' 'a' (by decide) (by decide)),
             Or.inl (charAt_append_ne "--with-curl-libdir=" _ 9 'r' '-' (by decide) (by decide))⟩
  · subst he
    decide

theorem octave_fftw_arpackish (s : OctaveSpec) : ∀ e ∈ octave_fftw_args s, NotArpackish e := by
  intro e he
  unfold octave_fftw_args at he
  split at he <;> simp only [List.mem_cons, List.not_mem_nil, or_false] at he
  · rcases he with rfl | rfl | rfl | rfl
    · exact ⟨Or.inr (charAt_append_ne "--with-fftw3-includedir=" _ 7 'f' 'a' (by decide) (by decide)),
             Or.inl (charAt_append_ne "--with-fftw3-includedir=" _ 9 't' '-' (by decide) (by decide))⟩
    · exact ⟨Or.inr (charAt_append_ne "--with-fftw3-libdir=" _ 7 'f' 'a' (by decide) (by decide)),
             Or.inl (charAt_append_ne "--with-fftw3-libdir=" _ 9 't' '-' (by decide) (by decide))⟩
    · exact ⟨Or.inr (charAt_append_ne "--with-fftw3f-includedir=" _ 7 'f' 'a' (by decide) (by decide)),
             Or.inl (charAt_append_ne "--with-fftw3f-includedir=" _ 9 't' '-' (by decide) (by decide))⟩
    · exact ⟨Or.inr (charAt_append_ne "--with-fftw3f-libdir=" _ 7 'f' 'a' (by decide) (by decide)),
             Or.inl (charAt_append_ne "--with-fftw3f-libdir=" _ 9 't' '-' (by decide) (by decide))⟩
  · rcases he with rfl | rfl <;> decide

theorem octave_fltk_arpackish (s : OctaveSpec) : ∀ e ∈ octave_fltk_args s, NotArpackish e := by
  intro e he
  unfold octave_fltk_args at he
  split at he <;> simp only [List.mem_cons, List.not_mem_nil, or_false] at he
  · rcases he with rfl | rfl
    · exact ⟨Or.inr (charAt_append_ne "--with-fltk-prefix=" _ 7 'f' 'a' (by decide) (by decide)),
             Or.inl (charAt_append_ne "--with-fltk-prefix=" _ 9 't' '-' (by decide) (by decide))⟩
    · exact ⟨Or.inr (charAt_append_ne "--with-fltk-exec-prefix=" _ 7 'f' 'a' (by decide) (by decide)),
             Or.inl (charAt_append_ne "--with-fltk-exec-prefix=" _ 9 't' '-' (by decide) (by decide))⟩
  · subst he
    decide

theorem octave_glpk_arpackish (s : OctaveSpec) : ∀ e ∈ octave_glpk_args s, NotArpackish e := by
  intro e he
  unfold octave_glpk_args at he
  split at he <;> simp only [List.mem_cons, List.not_mem_nil, or_false] at he
  · rcases he with rfl | rfl
    · exact ⟨Or.inr (charAt_append_ne "--with-glpk-includedir=" _ 7 'g' 'a' (by decide) (by decide)),
             Or.inl (charAt_append_ne "--with-glpk-includedir=" _ 9 'p' '-' (by decide) (by decide))⟩
    · exact ⟨Or.inr (charAt_append_ne "--with-glpk-libdir=" _ 7 'g' 'a' (by decide) (by decide)),
             Or.inl (charAt_append_ne "--with-glpk-libdir=" _ 9 'p' '-' (by decide) (by decide))⟩
  · subst he
    decide

theorem octave_magick_arpackish (s : OctaveSpec) :
    ∀ e ∈ octave_magick_args s, NotArpackish e := by
  intro e he
  unfold octave_magick_args at he
  split at he <;> simp only [List.mem_cons, List.not_mem_nil, or_false] at he
  · subst he
    exact ⟨Or.inr (charAt_append_ne "--with-magick=" _ 7 'm' 'a' (by decide) (by decide)),
           Or.inl (charAt_append_ne "--with-magick=" _ 9 'g' '-' (by decide) (by decide))⟩
  · subst he
    decide

theorem octave_hdf5_arpackish (s : OctaveSpec) : ∀ e ∈ octave_hdf5_args s, NotArpackish e := by
  intro e he
  unfold octave_hdf5_args at he
  split at he <;> simp only [List.mem_cons, List.not_mem_nil, or_false] at he
  · rcases he with rfl | rfl
    · exact ⟨Or.inr (charAt_append_ne "--with-hdf5-includedir=" _ 7 'h' 'a' (by decide) (by decide)),
             Or.inl (charAt_append_ne "--with-hdf5-includedir=" _ 9 'f' '-' (by decide) (by decide))⟩
    · exact ⟨Or.inr (charAt_append_ne "--with-hdf5-libdir=" _ 7 'h' 'a' (by decide) (by decide)),
             Or.inl (charAt_append_ne "--with-hdf5-libdir=" _ 9 'f' '-' (by decide) (by decide))⟩
  · subst he
    decide

theorem octave_jdk_arpackish (s : OctaveSpec) : ∀ e ∈ octave_jdk_args s, NotArpackish e := by
  intro e he
  unfold octave_jdk_args at he
  split at he <;> simp only [List.mem_cons, List.not_mem_nil, or_false] at he
  · rcases he with rfl | rfl | rfl
    · exact ⟨Or.inr (charAt_append_ne "--with-java-homedir=" _ 7 'j' 'a' (by decide) (by decide)),
             Or.inl (charAt_append_ne "--with-java-homedir=" _ 9 'v' '-' (by decide) (by decide))⟩
    · exact ⟨Or.inr (charAt_append_ne "--with-java-includedir=" _ 7 'j' 'a' (by decide) (by decide)),
             Or.inl (charAt_append_ne "--with-java-includedir=" _ 9 'v' '-' (by decide) (by decide))⟩
    · exact ⟨Or.inr (charAt_append_ne "--with-java-libdir=" _ 7 'j' 'a' (by decide) (by decide)),
             Or.inl (charAt_append_ne "--with-java-libdir=" _ 9 'v' '-' (by decide) (by decide))⟩
  · subst he
    decide

theorem octave_opengl_arpackish (s : OctaveSpec) :
    ∀ e ∈ octave_opengl_args s, NotArpackish e := by
  intro e he
  unfold octave_opengl_args at he
  split at he
  · exact absurd he (List.not_mem_nil e)
  · simp only [List.mem_cons, List.not_mem_nil, or_false] at he
    rcases he with rfl | rfl <;> decide

theorem octave_qhull_arpackish (s : OctaveSpec) : ∀ e ∈ octave_qhull_args s, NotArpackish e := by
  intro e he
  unfold octave_qhull_args at he
  split at he <;> simp only [List.mem_cons, List.not_mem_nil, or_false] at he
  · rcases he with rfl | rfl
    · exact ⟨Or.inr (charAt_append_ne "--with-qhull-includedir=" _ 7 'q' 'a' (by decide) (by decide)),
             Or.inl (charAt_append_ne "--with-qhull-includedir=" _ 9 'u' '-' (by decide) (by decide))⟩
    · exact ⟨Or.inr (charAt_append_ne "--with-qhull-libdir=" _ 7 'q' 'a' (by decide) (by decide)),
             Or.inl (charAt_append_ne "--with-qhull-libdir=" _ 9 'u' '-' (by decide) (by decide))⟩
  · subst he
    decide

theorem octave_qrupdate_arpackish (s : OctaveSpec) :
    ∀ e ∈ octave_qrupdate_args s, NotArpackish e := by
  intro e he
  unfold octave_qrupdate_args at he
  split at he <;> simp only [List.mem_cons, List.not_mem_nil, or_false] at he
  · rcases he with rfl | rfl
    · exact ⟨Or.inr (charAt_append_ne "--with-qrupdate-includedir=" _ 7 'q' 'a' (by decide) (by decide)),
             Or.inl (charAt_append_ne "--with-qrupdate-includedir=" _ 9 'u' '-' (by decide) (by decide))⟩
    · exact ⟨Or.inr (charAt_append_ne "--with-qrupdate-libdir=" _ 7 'q' 'a' (by decide) (by decide)),
             Or.inl (charAt_append_ne "--with-qrupdate-libdir=" _ 9 'u' '-' (by decide) (by decide))⟩
  · subst he
    decide

theorem octave_zlib_arpackish (s : OctaveSpec) : ∀ e ∈ octave_zlib_args s, NotArpackish e := by
  intro e he
  unfold octave_zlib_args at he
  split at he <;> simp only [List.mem_cons, List.not_mem_nil, or_false] at he
  · rcases he with rfl | rfl
    · exact ⟨Or.inr (charAt_append_ne "--with-z-includedir=" _ 7 'z' 'a' (by decide) (by decide)),
             Or.inl (charAt_append_ne "--with-z-includedir=" _ 9 'i' '-' (by decide) (by decide))⟩
    · exact ⟨Or.inr (charAt_append_ne "--with-z-libdir=" _ 7 'z' 'a' (by decide) (by decide)),
             Or.inl (charAt_append_ne "--with-z-libdir=" _ 9 'l' '-' (by decide) (by decide))⟩
  · subst he
    decide

/-! The three arpack arguments violate `NotArpackish`. -/

theorem with_arpack_includedir_not_na (x : String) :
    ¬ NotArpackish ("--with-arpack-includedir=" ++ x) := by
  intro h
  rcases h.1 with h6 | h7
  · exact h6 (charAt_append x (by decide))
  · exact h7 (charAt_append x (by decide))

theorem with_arpack_libdir_not_na (x : String) :
    ¬ NotArpackish ("--with-arpack-libdir=" ++ x) := by
  intro h
  rcases h.1 with h6 | h7
  · exact h6 (charAt_append x (by decide))
  · exact h7 (charAt_append x (by decide))

theorem without_arpack_not_na : ¬ NotArpackish "--without-arpack" := by decide

/-- The includedir argument appears in `configure_args` exactly when the
arpack variant is enabled. -/
theorem octave_with_arpack_includedir_iff (s : OctaveSpec) :
    (("--with-arpack-includedir=" ++ pr_include s.arpack_pr) ∈ octave_configure_args s)
      ↔ s.arpack = true := by
  constructor
  · intro hmem
    unfold octave_configure_args at hmem
    simp only [List.mem_append] at hmem
    rcases hmem with
      ((((((((((((h1 | h2) | h3) | h4) | h5) | h6) | h7) | h8) | h9) | h10) | h11) | h12) |
        h13) | h14
    · exact absurd (octave_blas_arpackish s _ h1) (with_arpack_includedir_not_na _)
    · exact absurd (octave_readline_arpackish s _ h2) (with_arpack_includedir_not_na _)
    · cases harp : s.arpack with
      | true => rfl
      | false =>
        unfold octave_arpack_args at h3
        rw [harp] at h3
        simp only [Bool.false_eq_true, if_false, List.mem_cons, List.not_mem_nil,
          or_false] at h3
        exact absurd h3 (append_ne_lit _ _ _ 6 '-' 'o' (by decide) (by decide) (by decide))
    · exact absurd (octave_curl_arpackish s _ h4) (with_arpack_includedir_not_na _)
    · exact absurd (octave_fftw_arpackish s _ h5) (with_arpack_includedir_not_na _)
    · exact absurd (octave_fltk_arpackish s _ h6) (with_arpack_includedir_not_na _)
    · exact absurd (octave_glpk_arpackish s _ h7) (with_arpack_includedir_not_na _)
    · exact absurd (octave_magick_arpackish s _ h8) (with_arpack_includedir_not_na _)
    · exact absurd (octave_hdf5_arpackish s _ h9) (with_arpack_includedir_not_na _)
    · exact absurd (octave_jdk_arpackish s _ h10) (with_arpack_includedir_not_na _)
    · exact absurd (octave_opengl_arpackish s _ h11) (with_arpack_includedir_not_na _)
    · exact absurd (octave_qhull_arpackish s _ h12) (with_arpack_includedir_not_na _)
    · exact absurd (octave_qrupdate_arpackish s _ h13) (with_arpack_includedir_not_na _)
    · exact absurd (octave_zlib_arpackish s _ h14) (with_arpack_includedir_not_na _)
  · intro h
    have hm3 : ("--with-arpack-includedir=" ++ pr_include s.arpack_pr) ∈
        octave_arpack_args s := by
      unfold octave_arpack_args
      rw [if_pos h]
      exact List.mem_cons_self _ _
    unfold octave_configure_args
    exact List.mem_append_left _ (List.mem_append_left _ (List.mem_append_left _
      (List.mem_append_left _ (List.mem_append_left _ (List.mem_append_left _
      (List.mem_append_left _ (List.mem_append_left _ (List.mem_append_left _
      (List.mem_append_left _ (List.mem_append_left _ (List.mem_append_right _ hm3)))))))))))

/-- The libdir argument appears in `configure_args` exactly when the arpack
variant is enabled. -/
theorem octave_with_arpack_libdir_iff (s : OctaveSpec) :
    (("--with-arpack-libdir=" ++ pr_lib s.arpack_pr) ∈ octave_configure_args s)
      ↔ s.arpack = true := by
  constructor
  · intro hmem
    unfold octave_configure_args at hmem
    simp only [List.mem_append] at hmem
    rcases hmem with
      ((((((((((((h1 | h2) | h3) | h4) | h5) | h6) | h7) | h8) | h9) | h10) | h11) | h12) |
        h13) | h14
    · exact absurd (octave_blas_arpackish s _ h1) (with_arpack_libdir_not_na _)
    · exact absurd (octave_readline_arpackish s _ h2) (with_arpack_libdir_not_na _)
    · cases harp : s.arpack with
      | true => rfl
      | false =>
        unfold octave_arpack_args at h3
        rw [harp] at h3
        simp only [Bool.false_eq_true, if_false, List.mem_cons, List.not_mem_nil,
          or_false] at h3
        exact absurd h3 (append_ne_lit _ _ _ 6 '-' 'o' (by decide) (by decide) (by decide))
    · exact absurd (octave_curl_arpackish s _ h4) (with_arpack_libdir_not_na _)
    · exact absurd (octave_fftw_arpackish s _ h5) (with_arpack_libdir_not_na _)
    · exact absurd (octave_fltk_arpackish s _ h6) (with_arpack_libdir_not_na _)
    · exact absurd (octave_glpk_arpackish s _ h7) (with_arpack_libdir_not_na _)
    · exact absurd (octave_magick_arpackish s _ h8) (with_arpack_libdir_not_na _)
    · exact absurd (octave_hdf5_arpackish s _ h9) (with_arpack_libdir_not_na _)
    · exact absurd (octave_jdk_arpackish s _ h10) (with_arpack_libdir_not_na _)
    · exact absurd (octave_opengl_arpackish s _ h11) (with_arpack_libdir_not_na _)
    · exact absurd (octave_qhull_arpackish s _ h12) (with_arpack_libdir_not_na _)
    · exact absurd (octave_qrupdate_arpackish s _ h13) (with_arpack_libdir_not_na _)
    · exact absurd (octave_zlib_arpackish s _ h14) (with_arpack_libdir_not_na _)
  · intro h
    have hm3 : ("--with-arpack-libdir=" ++ pr_lib s.arpack_pr) ∈ octave_arpack_args s := by
      unfold octave_arpack_args
      rw [if_pos h]
      exact List.mem_cons_of_mem _ (List.mem_cons_self _ _)
    unfold octave_configure_args
    exact List.mem_append_left _ (List.mem_append_left _ (List.mem_append_left _
      (List.mem_append_left _ (List.mem_append_left _ (List.mem_append_left _
      (List.mem_append_left _ (List.mem_append_left _ (List.mem_append_left _
      (List.mem_append_left _ (List.mem_append_left _ (List.mem_append_right _ hm3)))))))))))

/-- The "--without-arpack" argument appears in `configure_args` exactly when
the arpack variant is disabled. -/
theorem octave_without_arpack_iff (s : OctaveSpec) :
    (("--without-arpack" : String) ∈ octave_configure_args s) ↔ s.arpack = false := by
  constructor
  · intro hmem
    unfold octave_configure_args at hmem
    simp only [List.mem_append] at hmem
    rcases hmem with
      ((((((((((((h1 | h2) | h3) | h4) | h5) | h6) | h7) | h8) | h9) | h10) | h11) | h12) |
        h13) | h14
    · exact absurd (octave_blas_arpackish s _ h1) without_arpack_not_na
    · exact absurd (octave_readline_arpackish s _ h2) without_arpack_not_na
    · cases harp : s.arpack with
      | false => rfl
      | true =>
        unfold octave_arpack_args at h3
        rw [harp] at h3
        simp only [if_true, List.mem_cons, List.not_mem_nil, or_false] at h3
        rcases h3 with h3 | h3
        · exact absurd h3 (lit_ne_append _ _ _ 6 'o' '-' (by decide) (by decide) (by decide))
        · exact absurd h3 (lit_ne_append _ _ _ 6 'o' '-' (by decide) (by decide) (by decide))
    · exact absurd (octave_curl_arpackish s _ h4) without_arpack_not_na
    · exact absurd (octave_fftw_arpackish s _ h5) without_arpack_not_na
    · exact absurd (octave_fltk_arpackish s _ h6) without_arpack_not_na
    · exact absurd (octave_glpk_arpackish s _ h7) without_arpack_not_na
    · exact absurd (octave_magick_arpackish s _ h8) without_arpack_not_na
    · exact absurd (octave_hdf5_arpackish s _ h9) without_arpack_not_na
    · exact absurd (octave_jdk_arpackish s _ h10) without_arpack_not_na
    · exact absurd (octave_opengl_arpackish s _ h11) without_arpack_not_na
    · exact absurd (octave_qhull_arpackish s _ h12) without_arpack_not_na
    · exact absurd (octave_qrupdate_arpackish s _ h13) without_arpack_not_na
    · exact absurd (octave_zlib_arpackish s _ h14) without_arpack_not_na
  · intro h
    have hm3 : ("--without-arpack" : String) ∈ octave_arpack_args s := by
      unfold octave_arpack_args
      rw [if_neg (by simp [h])]
      exact List.mem_cons_self _ _
    unfold octave_configure_args
    exact List.mem_append_left _ (List.mem_append_left _ (List.mem_append_left _
      (List.mem_append_left _ (List.mem_append_left _ (List.mem_append_left _
      (List.mem_append_left _ (List.mem_append_left _ (List.mem_append_left _
      (List.mem_append_left _ (List.mem_append_left _ (List.mem_append_right _ hm3)))))))))))

/-- A dependency guarded by a boolean variant is solved into the graph
exactly when the variant holds, provided every declaration of that target
carries the same guard. -/
theorem solver_guard_resolution (vars : String → Bool) (decls : List DepDecl) (Q f : String)
    (hin : (⟨Q, some f⟩ : DepDecl) ∈ decls)
    (hall : ∀ d ∈ decls, d.target = Q → d.guard = some f) :
    (vars f = true → Q ∈ solve_deps vars decls) ∧
    (vars f = false → Q ∉ solve_deps vars decls) := by
  constructor
  · intro hv
    apply List.mem_filterMap.mpr
    refine ⟨⟨Q, some f⟩, hin, ?_⟩
    simp [hv]
  · intro hv hmem
    rcases List.mem_filterMap.mp hmem with ⟨d, hd, hfd⟩
    rcases d with ⟨t, g⟩
    cases g with
    | none =>
      have ht : t = Q := by simpa using hfd
      exact Option.noConfusion (hall ⟨t, none⟩ hd ht)
    | some v =>
      have hfd2 : (if vars v = true then some t else none) = some Q := hfd
      split at hfd2
      next hcond =>
        have ht : t = Q := Option.some.inj hfd2
        have hg : (some v : Option String) = some f := hall ⟨t, some v⟩ hd ht
        have hvf : v = f := Option.some.inj hg
        rw [hvf, hv] at hcond
        exact Bool.noConfusion hcond
      next =>
        exact Option.noConfusion hfd2

/-- The octave registry entry solves arpack-ng into the graph exactly when
the arpack variant holds. -/
theorem solver_octave_arpack (vars : String → Bool) (isDarwin : Bool) :
    ("arpack-ng" ∈ solve_deps vars (octave_dep_decls isDarwin)) ↔ vars "arpack" = true := by
  cases isDarwin <;> simp [solve_deps, octave_dep_decls, List.mem_filterMap]

/-- C6: a dependency declared under a boolean-variant guard is included in
the solved graph exactly when the guarding variant is set (in general, and
for the octave registry entry's arpack-ng dependency in particular), and
octave's `configure_args` emits the `--with-arpack-*` arguments referencing
the dependency's install prefix exactly when the variant is enabled, and
`--without-arpack` exactly when it is disabled. -/
theorem c6_variant_guarded_dependency :
    (∀ (vars : String → Bool) (decls : List DepDecl) (Q f : String),
       (⟨Q, some f⟩ : DepDecl) ∈ decls →
       (∀ d ∈ decls, d.target = Q → d.guard = some f) →
       ((vars f = true → Q ∈ solve_deps vars decls) ∧
        (vars f = false → Q ∉ solve_deps vars decls))) ∧
    (∀ (vars : String → Bool) (isDarwin : Bool),
       ("arpack-ng" ∈ solve_deps vars (octave_dep_decls isDarwin)) ↔ vars "arpack" = true) ∧
    (∀ s : OctaveSpec,
       ((("--with-arpack-includedir=" ++ pr_include s.arpack_pr) ∈ octave_configure_args s)
          ↔ s.arpack = true) ∧
       ((("--with-arpack-libdir=" ++ pr_lib s.arpack_pr) ∈ octave_configure_args s)
          ↔ s.arpack = true) ∧
       ((("--without-arpack" : String) ∈ octave_configure_args s) ↔ s.arpack = false)) :=
  ⟨solver_guard_resolution, solver_octave_arpack, fun s =>
    ⟨octave_with_arpack_includedir_iff s, octave_with_arpack_libdir_iff s,
     octave_without_arpack_iff s⟩⟩

theorem c6_witness :
    ("arpack-ng" ∈ solve_deps (fun v => v == "arpack") (octave_dep_decls false)) ↔
      (fun v : String => v == "arpack") "arpack" = true :=
  c6_variant_guarded_dependency.2.1 (fun v => v == "arpack") false

end Spack
